import Mathlib

/-!
Shallow embedding of the club-member-pages front-end (two React client
components) and proofs about its loading/error/content state machines.

* `HomePage` (src/src/app/page.tsx): fetches `/user_list.json`, renders one
  link per slug, with loading / error / empty-list states.
* `UserPage` (src/unnamed/part_000): fetches
  `/user_pages/<slug>/index.html` and `/user_pages/<slug>/style.css`,
  renders them, with loading / error / content states.

Network behaviour is modelled by an environment assigning each request an
outcome: `Except.error m` is a rejected promise with message `m`;
`Except.ok r` is a resolved response carrying its `ok` status and body.
Reading a body (`.text()` / `.json()`) is folded into the response value;
for the list view the response carries the outcome of `response.json()`:
a rejection for an invalid-JSON body, otherwise the decoded JSON value of
whatever shape.
-/

/-- A resolved response for the detail view: HTTP ok-flag and body text. -/
structure PageResponse where
  ok : Bool
  text : String
deriving DecidableEq

/-- Outcomes of the two requests a `UserPage` mount can issue, keyed by the
URLs `/user_pages/<slug>/index.html` and `/user_pages/<slug>/style.css`. -/
structure PageEnv where
  htmlResult : Except String PageResponse
  cssResult : Except String PageResponse

/-- The four `useState` cells of `UserPage`. -/
structure UserPageState where
  htmlContent : String
  cssContent : String
  isLoading : Bool
  error : Option String
deriving DecidableEq

/-- Initial state: `useState('')`, `useState('')`, `useState(true)`,
`useState(null)`. -/
def initialUserPageState : UserPageState :=
  { htmlContent := "", cssContent := "", isLoading := true, error := none }

/-- URL of the markup resource: `/user_pages/${slug}/index.html`. -/
def htmlPath (slug : String) : String :=
  "/user_pages/" ++ slug ++ "/index.html"

/-- URL of the stylesheet resource: `/user_pages/${slug}/style.css`. -/
def cssPath (slug : String) : String :=
  "/user_pages/" ++ slug ++ "/style.css"

/-- Message of the error thrown when the markup response is not ok. -/
def htmlNotFoundMessage (slug : String) : String :=
  "HTMLファイルが見つかりません: " ++ htmlPath slug

/-- The `console.warn` diagnostic for a missing stylesheet. -/
def cssWarnMessage (slug : String) : String :=
  "CSSファイルが見つかりません: " ++ cssPath slug ++ "。CSSは適用されません。"

/-- The user-facing error set in the catch block:
`ページコンテンツの読み込みに失敗しました: ${err.message || '不明なエラー'}`. -/
def pageErrorMessage (m : String) : String :=
  "ページコンテンツの読み込みに失敗しました: " ++ (if m = "" then "不明なエラー" else m)

/-- Side effects of one `fetchUserPageContent` run: the URLs requested, in
order, and the `console.warn` / `console.error` diagnostics emitted. -/
structure PageEffects where
  requests : List String
  warnings : List String
  consoleErrors : List String
deriving DecidableEq

/-- The async function `fetchUserPageContent` of `UserPage`, as a function
from the request outcomes and the state at entry to the state at exit plus
its side effects.  Mirrors the source line by line: set loading/clear error,
await the markup fetch (a non-ok status throws, naming the path; the body is
stored), then await the stylesheet fetch (a non-ok status only warns and
stores the empty string); any thrown/rejected error is caught, logged via
`console.error` and stored in `error`; `finally` clears `isLoading`. -/
def fetchUserPageContent (slug : String) (env : PageEnv) (s0 : UserPageState) :
    UserPageState × PageEffects :=
  let s := { s0 with isLoading := true, error := none }
  match env.htmlResult with
  | Except.error m =>
      ({ s with error := some (pageErrorMessage m), isLoading := false },
       { requests := [htmlPath slug], warnings := [],
         consoleErrors := ["コンテンツの読み込み中にエラーが発生しました: " ++ m] })
  | Except.ok htmlResponse =>
      if htmlResponse.ok = false then
        ({ s with error := some (pageErrorMessage (htmlNotFoundMessage slug)),
                  isLoading := false },
         { requests := [htmlPath slug], warnings := [],
           consoleErrors := ["コンテンツの読み込み中にエラーが発生しました: "
                               ++ htmlNotFoundMessage slug] })
      else
        let s := { s with htmlContent := htmlResponse.text }
        match env.cssResult with
        | Except.error m =>
            ({ s with error := some (pageErrorMessage m), isLoading := false },
             { requests := [htmlPath slug, cssPath slug], warnings := [],
               consoleErrors := ["コンテンツの読み込み中にエラーが発生しました: " ++ m] })
        | Except.ok cssResponse =>
            if cssResponse.ok = false then
              ({ s with cssContent := "", isLoading := false },
               { requests := [htmlPath slug, cssPath slug],
                 warnings := [cssWarnMessage slug], consoleErrors := [] })
            else
              ({ s with cssContent := cssResponse.text, isLoading := false },
               { requests := [htmlPath slug, cssPath slug],
                 warnings := [], consoleErrors := [] })

/-- The `useEffect` body of `UserPage`, run once per mount for a given slug
(dependency array `[slug]`).  A falsy slug (modelled as the empty string)
only clears `isLoading` and issues no request; otherwise the fetch runs. -/
def userPageMount (slug : String) (env : PageEnv) : UserPageState × PageEffects :=
  if slug = "" then
    ({ initialUserPageState with isLoading := false },
     { requests := [], warnings := [], consoleErrors := [] })
  else
    fetchUserPageContent slug env initialUserPageState

/-- What `UserPage` returns from render: the loading screen, the error
screen, or the content screen carrying the injected stylesheet and markup. -/
inductive PageView
  | loadingView
  | errorView (message : String)
  | contentView (cssContent htmlContent : String)
deriving DecidableEq

/-- The render function of `UserPage`: loading wins, then error, else the
content with `cssContent` in a style tag and `htmlContent` in a div. -/
def renderUserPage (s : UserPageState) : PageView :=
  if s.isLoading then PageView.loadingView
  else
    match s.error with
    | some m => PageView.errorView m
    | none => PageView.contentView s.cssContent s.htmlContent

/-- One `setState` call performed by `fetchUserPageContent`. -/
inductive PageAction
  | setHtmlContent (v : String)
  | setCssContent (v : String)
  | setIsLoading (b : Bool)
  | setError (e : Option String)
deriving DecidableEq

/-- Effect of a single `setState` call on the component state. -/
def applyAction (s : UserPageState) : PageAction → UserPageState
  | PageAction.setHtmlContent v => { s with htmlContent := v }
  | PageAction.setCssContent v => { s with cssContent := v }
  | PageAction.setIsLoading b => { s with isLoading := b }
  | PageAction.setError e => { s with error := e }

/-- Applying a sequence of `setState` calls in order. -/
def applyActions (s : UserPageState) (l : List PageAction) : UserPageState :=
  l.foldl applyAction s

/-- The `setState` calls `fetchUserPageContent` performs synchronously
before its first `await` (the suspension at the markup fetch):
`setIsLoading(true); setError(null)`. -/
def runHeadActions : List PageAction :=
  [PageAction.setIsLoading true, PageAction.setError none]

/-- The `setState` calls the continuation of `fetchUserPageContent`
performs once the markup fetch settles.  The effect installs no cleanup,
abort or identifier tag, so these calls run unconditionally even if the
slug has changed in the meantime. -/
def runTailActions (slug : String) (env : PageEnv) : List PageAction :=
  match env.htmlResult with
  | Except.error m =>
      [PageAction.setError (some (pageErrorMessage m)),
       PageAction.setIsLoading false]
  | Except.ok htmlResponse =>
      if htmlResponse.ok = false then
        [PageAction.setError (some (pageErrorMessage (htmlNotFoundMessage slug))),
         PageAction.setIsLoading false]
      else
        PageAction.setHtmlContent htmlResponse.text ::
          (match env.cssResult with
           | Except.error m =>
               [PageAction.setError (some (pageErrorMessage m)),
                PageAction.setIsLoading false]
           | Except.ok cssResponse =>
               if cssResponse.ok = false then
                 [PageAction.setCssContent "", PageAction.setIsLoading false]
               else
                 [PageAction.setCssContent cssResponse.text,
                  PageAction.setIsLoading false])

/-- All `setState` calls of one uninterrupted `fetchUserPageContent` run. -/
def runActions (slug : String) (env : PageEnv) : List PageAction :=
  runHeadActions ++ runTailActions slug env

/-- The action trace agrees with the direct state-transformer embedding. -/
theorem applyActions_runActions (slug : String) (env : PageEnv) :
    applyActions initialUserPageState (runActions slug env) =
      (fetchUserPageContent slug env initialUserPageState).1 := by
  rcases env with ⟨htmlResult, cssResult⟩
  rcases htmlResult with m | hr
  · rfl
  · rcases hr with ⟨hok, htext⟩
    cases hok
    · rfl
    · rcases cssResult with m | cr
      · rfl
      · rcases cr with ⟨cok, ctext⟩
        cases cok <;> rfl

/-- One step in the detail view's event trace: a request being issued, a
request settling (resolving or rejecting), or a `setState` call. -/
inductive PageEvent
  | requestIssued (url : String)
  | requestSettled (url : String)
  | act (a : PageAction)
deriving DecidableEq

/-- State reached after a prefix of the event trace (only `setState` events
change the state). -/
def stateAfterEvents (t : List PageEvent) : UserPageState :=
  t.foldl
    (fun s e =>
      match e with
      | PageEvent.act a => applyAction s a
      | _ => s)
    initialUserPageState

/-- Number of requests issued but not yet settled in a trace prefix.  The
source awaits each fetch immediately, so at most one is ever pending. -/
def pendingRequests (t : List PageEvent) : Nat :=
  (t.countP fun e => match e with | PageEvent.requestIssued _ => true | _ => false) -
    (t.countP fun e => match e with | PageEvent.requestSettled _ => true | _ => false)

/-- Full event trace of one `fetchUserPageContent` run: the synchronous
head, the markup fetch (issue then settle), its continuation, then on
success the stylesheet fetch and its continuation; `setIsLoading(false)`
(the `finally` clause) is the last event of every run. -/
def runEvents (slug : String) (env : PageEnv) : List PageEvent :=
  PageEvent.act (PageAction.setIsLoading true) ::
  PageEvent.act (PageAction.setError none) ::
  PageEvent.requestIssued (htmlPath slug) ::
  PageEvent.requestSettled (htmlPath slug) ::
  (match env.htmlResult with
   | Except.error m =>
       [PageEvent.act (PageAction.setError (some (pageErrorMessage m))),
        PageEvent.act (PageAction.setIsLoading false)]
   | Except.ok htmlResponse =>
       if htmlResponse.ok = false then
         [PageEvent.act (PageAction.setError
            (some (pageErrorMessage (htmlNotFoundMessage slug)))),
          PageEvent.act (PageAction.setIsLoading false)]
       else
         PageEvent.act (PageAction.setHtmlContent htmlResponse.text) ::
         PageEvent.requestIssued (cssPath slug) ::
         PageEvent.requestSettled (cssPath slug) ::
         (match env.cssResult with
          | Except.error m =>
              [PageEvent.act (PageAction.setError (some (pageErrorMessage m))),
               PageEvent.act (PageAction.setIsLoading false)]
          | Except.ok cssResponse =>
              if cssResponse.ok = false then
                [PageEvent.act (PageAction.setCssContent ""),
                 PageEvent.act (PageAction.setIsLoading false)]
              else
                [PageEvent.act (PageAction.setCssContent cssResponse.text),
                 PageEvent.act (PageAction.setIsLoading false)]))

/-- Event trace of a `UserPage` mount: a falsy slug only clears the loading
flag, otherwise the fetch run happens. -/
def mountEvents (slug : String) (env : PageEnv) : List PageEvent :=
  if slug = "" then [PageEvent.act (PageAction.setIsLoading false)]
  else runEvents slug env

/-- A JSON value as produced by a resolving `response.json()`
(`JSON.parse` of the body).  A numeric literal is carried as its display
text; no theorem in this file inspects a number beyond the
integer-rendered numerals of concrete inputs. -/
inductive Json
  | null
  | bool (b : Bool)
  | number (lit : String)
  | str (s : String)
  | arr (elements : List Json)
  | obj (fields : List (String × Json))

mutual

/-- JS stringification `String(v)`, as performed by the template literals
`${slug}` and `/users/${slug}`: strings verbatim, numbers by their literal
text, `true`/`false`, `null`, arrays comma-joined (a `null` element joins
as the empty string), plain objects as `[object Object]`. -/
def jsToString : Json → String
  | Json.null => "null"
  | Json.bool true => "true"
  | Json.bool false => "false"
  | Json.number lit => lit
  | Json.str s => s
  | Json.arr elements => jsJoinElems elements
  | Json.obj _ => "[object Object]"

/-- `Array.prototype.toString`: elements joined with commas, a `null`
element contributing the empty string. -/
def jsJoinElems : List Json → String
  | [] => ""
  | [Json.null] => ""
  | [j] => jsToString j
  | Json.null :: rest => "," ++ jsJoinElems rest
  | j :: rest => jsToString j ++ "," ++ jsJoinElems rest

end

/-- JS property lookup on a decoded JSON object: `JSON.parse` keeps the
last duplicate of a key, so the lookup reads the last matching field. -/
def jsLookup (key : String) (fields : List (String × Json)) : Option Json :=
  (fields.reverse.find? fun f => f.1 == key).map fun f => f.2

/-- A resolved response for the list view: HTTP ok-flag and the outcome of
`response.json()` — `Except.error m` when the body is not valid JSON (the
promise rejects with message `m`), otherwise the decoded JSON value,
whatever its shape.  The `UserSlug[]` annotation in the source is a
compile-time assertion only; the code performs no runtime shape check. -/
structure ListResponse where
  ok : Bool
  json : Except String Json

/-- Outcome of the single request a `HomePage` mount issues. -/
structure ListEnv where
  listResult : Except String ListResponse

/-- The three `useState` cells of `HomePage`; `userSlugs` holds whatever
value `response.json()` produced (initially the empty array). -/
structure HomeState where
  userSlugs : Json
  isLoading : Bool
  error : Option String

/-- Initial state: `useState([])`, `useState(true)`, `useState(null)`. -/
def initialHomeState : HomeState :=
  { userSlugs := Json.arr [], isLoading := true, error := none }

/-- Message of the error thrown when the list response is not ok. -/
def listNotOkMessage : String :=
  "ユーザーリストの読み込みに失敗しました。ファイルが存在するか確認してください。"

/-- The catch block's fallback: `err.message || '...不明なエラー...'`. -/
def homeErrorMessage (m : String) : String :=
  if m = "" then "ユーザーリストの読み込み中に不明なエラーが発生しました。" else m

/-- The async function `fetchUsers` of `HomePage`, returning the state at
exit and the list of URLs requested.  Mirrors the source: await the fetch
of `/user_list.json` (a non-ok status throws), await `response.json()`,
and store the decoded value verbatim via `setUserSlugs` — with no check
that it is an array of strings; any rejection is caught and stored;
`finally` clears `isLoading`. -/
def fetchUsers (env : ListEnv) (s0 : HomeState) : HomeState × List String :=
  match env.listResult with
  | Except.error m =>
      ({ s0 with error := some (homeErrorMessage m), isLoading := false },
       ["/user_list.json"])
  | Except.ok response =>
      if response.ok = false then
        ({ s0 with error := some (homeErrorMessage listNotOkMessage),
                   isLoading := false },
         ["/user_list.json"])
      else
        match response.json with
        | Except.error m =>
            ({ s0 with error := some (homeErrorMessage m), isLoading := false },
             ["/user_list.json"])
        | Except.ok data =>
            ({ s0 with userSlugs := data, isLoading := false },
             ["/user_list.json"])

/-- The `useEffect` body of `HomePage`; dependency array `[]`, so it runs
exactly once per mount. -/
def homePageMount (env : ListEnv) : HomeState × List String :=
  fetchUsers env initialHomeState

/-- What `HomePage` returns from render; `renderCrash` is a TypeError
thrown while evaluating the member grid (`.length` on `null`, or `.map` on
a value that is not an array) — an uncaught exception, distinct from the
component's own error state. -/
inductive HomeView
  | loadingView
  | errorView (message : String)
  | emptyListView
  | membersView (entries : List (String × String))
  | renderCrash
deriving DecidableEq

/-- The link entry rendered for one slug: label `{slug}`, destination
`/users/${slug}`. -/
def userLink (slug : String) : String × String :=
  (slug, "/users/" ++ slug)

/-- The render function of `HomePage`: loading wins, then error; otherwise
the JSX `userSlugs.length === 0 ? <empty/> : userSlugs.map(...)` is
evaluated under JS semantics for the stored value.  An array uses its
element count and maps to one entry per element, label `{slug}` and
destination `/users/${slug}` (both via JS stringification, which is what
React renders for the string and number elements any theorem here
exercises).  A string body has a length (only the zero test matters) but
no `.map`; an object body reads its own `length` property — strictly
`=== 0` only for the number `0` — and has no `.map`; `null` throws on the
`.length` access itself; numbers and booleans have no `length` property
(undefined, never `=== 0`) and no `.map`. -/
def renderHomePage (s : HomeState) : HomeView :=
  if s.isLoading then HomeView.loadingView
  else
    match s.error with
    | some m => HomeView.errorView m
    | none =>
      match s.userSlugs with
      | Json.arr elements =>
          if elements.length = 0 then HomeView.emptyListView
          else
            HomeView.membersView
              (elements.map fun slug =>
                (jsToString slug, "/users/" ++ jsToString slug))
      | Json.str body =>
          if body.length = 0 then HomeView.emptyListView
          else HomeView.renderCrash
      | Json.obj fields =>
          match jsLookup "length" fields with
          | some (Json.number "0") => HomeView.emptyListView
          | _ => HomeView.renderCrash
      | _ => HomeView.renderCrash

/-- The entries visible in a rendered home view (none outside the grid). -/
def renderedEntries : HomeView → List (String × String)
  | HomeView.membersView l => l
  | _ => []

/-- Helper: the home page's caught error message is never empty (the JS
`err.message || fallback` substitutes a non-empty fallback for `""`). -/
theorem homeErrorMessage_ne_empty (m : String) : homeErrorMessage m ≠ "" := by
  rw [homeErrorMessage]
  split
  · decide
  · assumption

/-- Helper: the thrown markup-not-found message is non-empty. -/
theorem htmlNotFoundMessage_ne_empty (slug : String) :
    htmlNotFoundMessage slug ≠ "" := by
  intro h
  have hlen := congrArg String.length h
  rw [htmlNotFoundMessage, htmlPath] at hlen
  simp [String.length_append] at hlen
  exact absurd hlen.1 (by decide)

/-- Helper: the caught markup error names the full missing resource path. -/
theorem pageErrorMessage_htmlNotFound (slug : String) :
    pageErrorMessage (htmlNotFoundMessage slug) =
      "ページコンテンツの読み込みに失敗しました: HTMLファイルが見つかりません: " ++ htmlPath slug := by
  rw [pageErrorMessage, if_neg (htmlNotFoundMessage_ne_empty slug), htmlNotFoundMessage,
    ← String.append_assoc]
  congr 1

/-- Claim C9: with no identifier in the route (slug absent/empty), the
detail view issues no network request, emits no diagnostics, and settles
out of the loading state in the content state with empty markup and empty
stylesheet — not an error state and not loading forever. -/
theorem missing_slug_no_requests (env : PageEnv) :
    userPageMount "" env =
      ({ htmlContent := "", cssContent := "", isLoading := false, error := none },
       { requests := [], warnings := [], consoleErrors := [] }) ∧
    renderUserPage (userPageMount "" env).1 = PageView.contentView "" "" := by
  constructor <;> rfl

/-- Claim C5: whenever the list resource resolves successfully with a body
decoding to the string array `data`, the rendered entries are exactly
`data.map userLink`: one entry per identifier, in list order, each linking
to `/users/<identifier>`; for a non-empty list the view is the members
grid itself. -/
theorem list_entries_per_slug (env : ListEnv) (response : ListResponse)
    (data : List String)
    (hres : env.listResult = Except.ok response) (hok : response.ok = true)
    (hjson : response.json = Except.ok (Json.arr (data.map Json.str))) :
    renderedEntries (renderHomePage (homePageMount env).1) = data.map userLink ∧
    (data ≠ [] →
      renderHomePage (homePageMount env).1 = HomeView.membersView (data.map userLink)) ∧
    (data.map userLink).length = data.length ∧
    (∀ slug ∈ data, userLink slug = (slug, "/users/" ++ slug)) := by
  have hstate : (homePageMount env).1 =
      { userSlugs := Json.arr (data.map Json.str), isLoading := false,
        error := none } := by
    simp [homePageMount, fetchUsers, hres, hok, hjson, initialHomeState]
  have hmap : (data.map Json.str).map
      (fun slug => (jsToString slug, "/users/" ++ jsToString slug)) =
        data.map userLink := by
    simp [List.map_map, Function.comp, jsToString, userLink]
  refine ⟨?_, ?_, by simp, fun slug _ => rfl⟩
  · rw [hstate]
    by_cases hdata : data = []
    · subst hdata
      simp [renderHomePage, renderedEntries]
    · simp [renderHomePage, renderedEntries, List.length_eq_zero, hdata, hmap]
  · intro hdata
    rw [hstate]
    simp [renderHomePage, List.length_eq_zero, hdata, hmap]

/-- Witness for C5 at the list `["a","b"]`. -/
theorem list_entries_per_slug_witness :
    renderedEntries (renderHomePage
        (homePageMount ⟨Except.ok ⟨true,
          Except.ok (Json.arr [Json.str "a", Json.str "b"])⟩⟩).1) =
      [("a", "/users/a"), ("b", "/users/b")] := by
  have h := list_entries_per_slug
    ⟨Except.ok ⟨true, Except.ok (Json.arr [Json.str "a", Json.str "b"])⟩⟩
    ⟨true, Except.ok (Json.arr [Json.str "a", Json.str "b"])⟩ ["a", "b"]
    rfl rfl rfl
  exact h.1

/-- Claim C6: a successful response whose body decodes to the empty array
renders the explicit empty-state message, not an error. -/
theorem empty_list_renders_empty_state (env : ListEnv) (response : ListResponse)
    (hres : env.listResult = Except.ok response) (hok : response.ok = true)
    (hjson : response.json = Except.ok (Json.arr [])) :
    renderHomePage (homePageMount env).1 = HomeView.emptyListView ∧
    (homePageMount env).1.error = none := by
  constructor <;>
    simp [homePageMount, fetchUsers, hres, hok, hjson, initialHomeState,
      renderHomePage]

/-- Witness for C6. -/
theorem empty_list_renders_empty_state_witness :
    renderHomePage
        (homePageMount ⟨Except.ok ⟨true, Except.ok (Json.arr [])⟩⟩).1 =
        HomeView.emptyListView ∧
      (homePageMount ⟨Except.ok ⟨true, Except.ok (Json.arr [])⟩⟩).1.error = none :=
  empty_list_renders_empty_state ⟨Except.ok ⟨true, Except.ok (Json.arr [])⟩⟩
    ⟨true, Except.ok (Json.arr [])⟩ rfl rfl rfl

/-- Counterexample to claim C7 as stated: a success-status response whose
body is valid JSON but NOT an array of strings (here the number array
`[1,2]`) does not put the list view into the failed state.  `json()`
resolves, the decoded value is stored into `userSlugs` with no shape
check, `error` stays `null`, and the grid renders the stringified
numbers. -/
theorem nonstring_array_body_not_failed :
    (homePageMount ⟨Except.ok ⟨true,
        Except.ok (Json.arr [Json.number "1", Json.number "2"])⟩⟩).1.error
        = none ∧
      (homePageMount ⟨Except.ok ⟨true,
          Except.ok (Json.arr [Json.number "1", Json.number "2"])⟩⟩).1.userSlugs
        = Json.arr [Json.number "1", Json.number "2"] ∧
      renderHomePage (homePageMount ⟨Except.ok ⟨true,
          Except.ok (Json.arr [Json.number "1", Json.number "2"])⟩⟩).1 =
        HomeView.membersView [("1", "/users/1"), ("2", "/users/2")] := by
  refine ⟨rfl, rfl, ?_⟩
  simp [homePageMount, fetchUsers, initialHomeState, renderHomePage, jsToString]

/-- Claim C7 as amended: a non-success status, or a body that is not valid
JSON (so `response.json()` rejects), puts the list view into the failed
state with a non-empty message, and the mount issues exactly one request
(no retry).  A body that is valid JSON but not an array of strings
instead takes the success path and is stored without any error — see the
counterexample. -/
theorem list_failure_error_state (env : ListEnv) (response : ListResponse)
    (hres : env.listResult = Except.ok response)
    (hfail : response.ok = false ∨ ∃ m, response.json = Except.error m) :
    ∃ msg, (homePageMount env).1.error = some msg ∧ msg ≠ "" ∧
      renderHomePage (homePageMount env).1 = HomeView.errorView msg ∧
      (homePageMount env).2 = ["/user_list.json"] := by
  by_cases hok : response.ok = false
  · refine ⟨homeErrorMessage listNotOkMessage, ?_, homeErrorMessage_ne_empty _, ?_, ?_⟩ <;>
      simp [homePageMount, fetchUsers, hres, hok, initialHomeState, renderHomePage]
  · have hok' : response.ok = true := by
      revert hok
      cases response.ok <;> simp
    rcases hfail with h | ⟨m, hjson⟩
    · exact absurd h hok
    · refine ⟨homeErrorMessage m, ?_, homeErrorMessage_ne_empty _, ?_, ?_⟩ <;>
        simp [homePageMount, fetchUsers, hres, hok', hjson, initialHomeState,
          renderHomePage]

/-- Witness for C7 at a non-success status. -/
theorem list_failure_error_state_witness :
    ∃ msg,
      (homePageMount ⟨Except.ok ⟨false, Except.error "parse"⟩⟩).1.error = some msg ∧
      msg ≠ "" ∧
      renderHomePage (homePageMount ⟨Except.ok ⟨false, Except.error "parse"⟩⟩).1 =
        HomeView.errorView msg ∧
      (homePageMount ⟨Except.ok ⟨false, Except.error "parse"⟩⟩).2 =
        ["/user_list.json"] :=
  list_failure_error_state ⟨Except.ok ⟨false, Except.error "parse"⟩⟩
    ⟨false, Except.error "parse"⟩ rfl (Or.inl rfl)

/-- Claim C1: if the markup response is ok and the stylesheet response has
a non-success status, the view renders the markup with empty stylesheet,
does not enter the error state, and the only diagnostic is the developer
`console.warn` (no `console.error`). -/
theorem stylesheet_failure_nonfatal (slug : String) (env : PageEnv)
    (hr cr : PageResponse) (hslug : slug ≠ "")
    (hhtml : env.htmlResult = Except.ok hr) (hok : hr.ok = true)
    (hcss : env.cssResult = Except.ok cr) (hcok : cr.ok = false) :
    (userPageMount slug env).1.error = none ∧
    renderUserPage (userPageMount slug env).1 = PageView.contentView "" hr.text ∧
    (userPageMount slug env).2.warnings = [cssWarnMessage slug] ∧
    (userPageMount slug env).2.consoleErrors = [] := by
  refine ⟨?_, ?_, ?_, ?_⟩ <;>
    simp [userPageMount, hslug, fetchUserPageContent, hhtml, hok, hcss, hcok,
      initialUserPageState, renderUserPage]

/-- Witness for C1. -/
theorem stylesheet_failure_nonfatal_witness :
    (userPageMount "a" ⟨Except.ok ⟨true, "<p>hi</p>"⟩, Except.ok ⟨false, ""⟩⟩).1.error
        = none ∧
      renderUserPage
          (userPageMount "a" ⟨Except.ok ⟨true, "<p>hi</p>"⟩, Except.ok ⟨false, ""⟩⟩).1 =
        PageView.contentView "" "<p>hi</p>" ∧
      (userPageMount "a" ⟨Except.ok ⟨true, "<p>hi</p>"⟩, Except.ok ⟨false, ""⟩⟩).2.warnings
        = [cssWarnMessage "a"] ∧
      (userPageMount "a"
          ⟨Except.ok ⟨true, "<p>hi</p>"⟩, Except.ok ⟨false, ""⟩⟩).2.consoleErrors = [] :=
  stylesheet_failure_nonfatal "a" ⟨Except.ok ⟨true, "<p>hi</p>"⟩, Except.ok ⟨false, ""⟩⟩
    ⟨true, "<p>hi</p>"⟩ ⟨false, ""⟩ (by decide) rfl rfl rfl rfl

/-- Claim C2: a non-success markup response puts the view in the failed
state with a message naming the path `/user_pages/<slug>/index.html`; the
markup content is never stored or rendered, and the mount issues the markup
request exactly once and nothing else (no retry). -/
theorem markup_failure_fatal (slug : String) (env : PageEnv) (hr : PageResponse)
    (hslug : slug ≠ "") (hhtml : env.htmlResult = Except.ok hr)
    (hok : hr.ok = false) :
    (userPageMount slug env).1.error =
      some ("ページコンテンツの読み込みに失敗しました: HTMLファイルが見つかりません: " ++ htmlPath slug) ∧
    (userPageMount slug env).1.htmlContent = "" ∧
    renderUserPage (userPageMount slug env).1 =
      PageView.errorView
        ("ページコンテンツの読み込みに失敗しました: HTMLファイルが見つかりません: " ++ htmlPath slug) ∧
    (userPageMount slug env).2.requests = [htmlPath slug] := by
  refine ⟨?_, ?_, ?_, ?_⟩ <;>
    simp [userPageMount, hslug, fetchUserPageContent, hhtml, hok,
      initialUserPageState, renderUserPage, pageErrorMessage_htmlNotFound]

/-- Witness for C2. -/
theorem markup_failure_fatal_witness :
    (userPageMount "a" ⟨Except.ok ⟨false, ""⟩, Except.ok ⟨true, "c"⟩⟩).1.error =
        some ("ページコンテンツの読み込みに失敗しました: HTMLファイルが見つかりません: " ++ htmlPath "a") ∧
      (userPageMount "a" ⟨Except.ok ⟨false, ""⟩, Except.ok ⟨true, "c"⟩⟩).1.htmlContent
        = "" ∧
      renderUserPage
          (userPageMount "a" ⟨Except.ok ⟨false, ""⟩, Except.ok ⟨true, "c"⟩⟩).1 =
        PageView.errorView
          ("ページコンテンツの読み込みに失敗しました: HTMLファイルが見つかりません: " ++ htmlPath "a") ∧
      (userPageMount "a" ⟨Except.ok ⟨false, ""⟩, Except.ok ⟨true, "c"⟩⟩).2.requests =
        [htmlPath "a"] :=
  markup_failure_fatal "a" ⟨Except.ok ⟨false, ""⟩, Except.ok ⟨true, "c"⟩⟩
    ⟨false, ""⟩ (by decide) rfl rfl

/-- Claim C10: the stylesheet request is issued only after the markup
request resolved with a success status (the request log is then exactly
markup followed by stylesheet); whenever the markup fetch fails — rejected
or resolved non-ok — the stylesheet request is never issued. -/
theorem stylesheet_after_markup (slug : String) (env : PageEnv)
    (hslug : slug ≠ "") :
    ((∃ hr, env.htmlResult = Except.ok hr ∧ hr.ok = true) →
      (userPageMount slug env).2.requests = [htmlPath slug, cssPath slug]) ∧
    ((∀ hr, env.htmlResult = Except.ok hr → hr.ok = false) →
      (userPageMount slug env).2.requests = [htmlPath slug]) := by
  rcases env with ⟨hres, cres⟩
  rcases hres with m | ⟨hok, htext⟩
  · constructor
    · rintro ⟨hr, hcontra, -⟩
      exact absurd hcontra (by simp)
    · intro _
      simp [userPageMount, hslug, fetchUserPageContent]
  · cases hok
    · constructor
      · rintro ⟨hr, heq, hok⟩
        rw [Except.ok.injEq] at heq
        rw [← heq] at hok
        exact absurd hok (by simp)
      · intro _
        simp [userPageMount, hslug, fetchUserPageContent]
    · constructor
      · intro _
        rcases cres with m | cr
        · simp [userPageMount, hslug, fetchUserPageContent]
        · rcases cr with ⟨cok, ctext⟩
          cases cok <;> simp [userPageMount, hslug, fetchUserPageContent]
      · intro hall
        have := hall ⟨true, htext⟩ rfl
        exact absurd this (by simp)

/-- Witness for C10. -/
theorem stylesheet_after_markup_witness :
    ((∃ hr, (⟨Except.ok ⟨true, "h"⟩, Except.ok ⟨true, "c"⟩⟩ : PageEnv).htmlResult =
          Except.ok hr ∧ hr.ok = true) →
      (userPageMount "a" ⟨Except.ok ⟨true, "h"⟩, Except.ok ⟨true, "c"⟩⟩).2.requests =
        [htmlPath "a", cssPath "a"]) ∧
    ((∀ hr, (⟨Except.ok ⟨true, "h"⟩, Except.ok ⟨true, "c"⟩⟩ : PageEnv).htmlResult =
          Except.ok hr → hr.ok = false) →
      (userPageMount "a" ⟨Except.ok ⟨true, "h"⟩, Except.ok ⟨true, "c"⟩⟩).2.requests =
        [htmlPath "a"]) :=
  stylesheet_after_markup "a" ⟨Except.ok ⟨true, "h"⟩, Except.ok ⟨true, "c"⟩⟩ (by decide)

/-- Counterexample to claim C4 as stated: with the markup fetch succeeding
and the stylesheet fetch rejecting outright (e.g. a network error), the
`catch` block runs and the view DOES enter the failed state, so the failed
state is not determined solely by the markup outcome. -/
theorem css_rejection_fails_view :
    (⟨Except.ok ⟨true, "<p>hi</p>"⟩, Except.error "network error"⟩ : PageEnv).htmlResult
        = Except.ok ⟨true, "<p>hi</p>"⟩ ∧
      (⟨true, "<p>hi</p>"⟩ : PageResponse).ok = true ∧
      renderUserPage
          (userPageMount "a"
            ⟨Except.ok ⟨true, "<p>hi</p>"⟩, Except.error "network error"⟩).1 =
        PageView.errorView "ページコンテンツの読み込みに失敗しました: network error" := by
  refine ⟨rfl, rfl, ?_⟩
  rfl

/-- Claim C4 as amended: the view leaves loading on every mount with a
non-empty slug, and it reaches the ready (non-error) state exactly when the
markup fetch resolves with a success status AND the stylesheet fetch
resolves (with any status); a non-success stylesheet status cannot fail the
view, but an outright stylesheet rejection does. -/
theorem readiness_characterization (slug : String) (env : PageEnv)
    (hslug : slug ≠ "") :
    ((userPageMount slug env).1.error = none ↔
      (∃ hr, env.htmlResult = Except.ok hr ∧ hr.ok = true) ∧
      (∃ cr, env.cssResult = Except.ok cr)) ∧
    (userPageMount slug env).1.isLoading = false := by
  rcases env with ⟨hres, cres⟩
  rcases hres with m | ⟨hok, htext⟩
  · constructor <;>
      simp [userPageMount, hslug, fetchUserPageContent, initialUserPageState]
  · cases hok
    · constructor <;>
        simp [userPageMount, hslug, fetchUserPageContent, initialUserPageState]
    · rcases cres with m | ⟨cok, ctext⟩
      · constructor <;>
          simp [userPageMount, hslug, fetchUserPageContent, initialUserPageState]
      · cases cok <;> constructor <;>
          simp [userPageMount, hslug, fetchUserPageContent, initialUserPageState]

/-- Witness for the amended C4. -/
theorem readiness_characterization_witness :
    ((userPageMount "a" ⟨Except.ok ⟨true, "h"⟩, Except.error "boom"⟩).1.error = none ↔
      (∃ hr, (⟨Except.ok ⟨true, "h"⟩, Except.error "boom"⟩ : PageEnv).htmlResult =
          Except.ok hr ∧ hr.ok = true) ∧
      (∃ cr, (⟨Except.ok ⟨true, "h"⟩, Except.error "boom"⟩ : PageEnv).cssResult =
          Except.ok cr)) ∧
    (userPageMount "a" ⟨Except.ok ⟨true, "h"⟩, Except.error "boom"⟩).1.isLoading =
      false :=
  readiness_characterization "a" ⟨Except.ok ⟨true, "h"⟩, Except.error "boom"⟩
    (by decide)

/-- Claim C3, evaluated at the failing input: the effect for slug `"x"`
runs its synchronous head and suspends at the markup fetch; the slug
changes to `"y"` and the run for `"y"` completes, rendering y's content;
then x's late responses arrive and its continuation runs.  Because the
effect registers no cleanup, abort, or identifier tag, the stale `setState`
calls for `"x"` are applied to the state now belonging to `"y"`: the view
ends up showing x's markup and stylesheet instead of y's. -/
theorem stale_response_applied :
    renderUserPage
        (applyActions initialUserPageState
          (runActions "y" ⟨Except.ok ⟨true, "Y-HTML"⟩, Except.ok ⟨true, "Y-CSS"⟩⟩)) =
      PageView.contentView "Y-CSS" "Y-HTML" ∧
    renderUserPage
        (applyActions
          (applyActions
            (applyActions initialUserPageState runHeadActions)
            (runActions "y" ⟨Except.ok ⟨true, "Y-HTML"⟩, Except.ok ⟨true, "Y-CSS"⟩⟩))
          (runTailActions "x" ⟨Except.ok ⟨true, "X-HTML"⟩, Except.ok ⟨true, "X-CSS"⟩⟩)) =
      PageView.contentView "X-CSS" "X-HTML" := by
  constructor <;> rfl

/-- Claim C8: at any point of a detail-view mount's event trace at which
some issued request has not yet settled, the view is still in the loading
state and renders the loading screen — ready content is never displayed
while a request is outstanding, and loading is left only by the final
`finally` step, after every issued request has settled. -/
theorem loading_until_requests_settled (slug : String) (env : PageEnv) (n : Nat)
    (hpending : 0 < pendingRequests ((mountEvents slug env).take n)) :
    (stateAfterEvents ((mountEvents slug env).take n)).isLoading = true ∧
    renderUserPage (stateAfterEvents ((mountEvents slug env).take n)) =
      PageView.loadingView := by
  have hload : (stateAfterEvents ((mountEvents slug env).take n)).isLoading = true := by
    by_cases hslug : slug = ""
    · exfalso
      subst hslug
      rcases n with _ | n <;>
        simp [mountEvents, pendingRequests, List.take] at hpending
    · simp only [mountEvents, if_neg hslug] at hpending ⊢
      rcases env with ⟨hres, cres⟩
      rcases hres with m | ⟨hok, htext⟩
      · rcases n with _ | _ | _ | _ | _ | _ | n <;>
          simp [runEvents, pendingRequests, stateAfterEvents, List.take,
            applyAction, initialUserPageState] at hpending ⊢
      · cases hok
        · rcases n with _ | _ | _ | _ | _ | _ | n <;>
            simp [runEvents, pendingRequests, stateAfterEvents, List.take,
              applyAction, initialUserPageState] at hpending ⊢
        · rcases cres with m | ⟨cok, ctext⟩
          · rcases n with _ | _ | _ | _ | _ | _ | _ | _ | _ | _ | n <;>
              simp [runEvents, pendingRequests, stateAfterEvents, List.take,
                applyAction, initialUserPageState] at hpending ⊢
          · cases cok <;>
              rcases n with _ | _ | _ | _ | _ | _ | _ | _ | _ | _ | n <;>
                simp [runEvents, pendingRequests, stateAfterEvents, List.take,
                  applyAction, initialUserPageState] at hpending ⊢
  refine ⟨hload, ?_⟩
  rw [renderUserPage, if_pos hload]

/-- Witness for C8: three events into the trace, the markup request has
been issued and not yet settled, and the view still shows the loader. -/
theorem loading_until_requests_settled_witness :
    0 < pendingRequests
        ((mountEvents "a" ⟨Except.ok ⟨true, "h"⟩, Except.ok ⟨true, "c"⟩⟩).take 3) ∧
      ((stateAfterEvents
          ((mountEvents "a" ⟨Except.ok ⟨true, "h"⟩, Except.ok ⟨true, "c"⟩⟩).take 3)).isLoading
          = true ∧
        renderUserPage
            (stateAfterEvents
              ((mountEvents "a" ⟨Except.ok ⟨true, "h"⟩, Except.ok ⟨true, "c"⟩⟩).take 3)) =
          PageView.loadingView) :=
  ⟨by decide,
    loading_until_requests_settled "a" ⟨Except.ok ⟨true, "h"⟩, Except.ok ⟨true, "c"⟩⟩ 3
      (by decide)⟩
